import Mathlib

/-!
Verification development for the option-master aggregation core
(`vnpy/app/option_master/base.py`).

The Python classes are embedded shallowly:

* floats become `ℚ` (all arithmetic in the file is exact on the inputs used);
* integer position quantities become `ℤ`;
* Python object references that would make the object graph cyclic
  (portfolio back-references, a chain stored inside an underlying) are
  represented by their registry keys; acyclic references (`option.underlying`,
  `chain.underlying`) are embedded as values, mirroring the state of the
  referenced object;
* Python `dict`s become insertion-ordered association lists with upsert
  assignment (`dictSet`) and `KeyError`-style lookup (`dictGet`);
* a method that can raise is modelled with `PyResult`: the `state` field holds
  the object state after the call, including any field writes performed
  before the exception, and `raised` records whether an exception propagated.
-/

/-- Result of running a Python method that may raise an exception: `state` is
the object state after the call (including field writes performed before the
raise) and `raised` records whether an exception propagated to the caller. -/
structure PyResult (α : Type) where
  state : α
  raised : Bool

/-- Quote snapshot delivered by the market-data feed (the fields of vnpy
`TickData` that this module reads). -/
structure TickData where
  vt_symbol : String
  bid_price_1 : ℚ
  ask_price_1 : ℚ

/-- vnpy `Direction` enum (the constants compared against in `update_trade`). -/
inductive Direction where
  | LONG
  | SHORT
  | NET
  deriving DecidableEq

/-- vnpy `Offset` enum. `update_trade` only tests equality with `OPEN`. -/
inductive Offset where
  | NONE
  | OPEN
  | CLOSE
  | CLOSETODAY
  | CLOSEYESTERDAY
  deriving DecidableEq

/-- vnpy `OptionType` enum. -/
inductive OptionType where
  | CALL
  | PUT
  deriving DecidableEq

/-- Fill event (the fields of vnpy `TradeData` read by this module). Volumes
are modelled as integers, matching the `int` annotations of the position
fields they are added to. -/
structure TradeData where
  vt_symbol : String
  direction : Direction
  offset : Offset
  volume : ℤ

/-- Position snapshot from the reconciliation collaborator (the two fields of
vnpy `PositionHolding` read by `update_holding`). -/
structure PositionHolding where
  long_pos : ℤ
  short_pos : ℤ

/-- Static contract definition (the fields of vnpy `ContractData` read by this
module).  `option_expiry_days` models `calculate_days_to_expiry(option_expiry)`
from the external `.time` module, which is not under `src/`; modelled from the
spec: "days-to-expiry".  `exchange` carries `Exchange.value` directly. -/
structure ContractData where
  symbol : String
  exchange : String
  vt_symbol : String
  pricetick : ℚ
  min_volume : ℚ
  size : ℤ
  option_strike : ℚ
  option_index : String
  option_type : OptionType
  option_underlying : String
  option_expiry_days : ℤ

/-- Modelled from the spec: the annual day count used to turn days-to-expiry
into a year fraction ("days-to-expiry / annual day count, e.g. 365"); the
constant `ANNUAL_DAYS` itself lives in the external `.time` module. -/
def ANNUAL_DAYS : ℚ := 365

/-- Python `dict` lookup `d[k]` as an `Option` (a `none` is where Python would
raise `KeyError`); `d.get(k, None)` has the same meaning. -/
def dictGet {α : Type} : List (String × α) → String → Option α
  | [], _ => none
  | (k, v) :: tl, key => if k = key then some v else dictGet tl key

/-- Python `dict` assignment `d[k] = v`: replace the value at the first
occurrence of the key, appending a fresh entry when the key is absent. -/
def dictSet {α : Type} : List (String × α) → String → α → List (String × α)
  | [], key, v => [(key, v)]
  | (k, w) :: tl, key, v =>
      if k = key then (k, v) :: tl else (k, w) :: dictSet tl key v

/-- Shared quote/position bookkeeping (`InstrumentData.__init__`).  The
`portfolio` back-reference is represented by the owning portfolio's name to
keep the object graph acyclic; `None` is `none`. -/
structure InstrumentData where
  symbol : String
  exchange : String
  vt_symbol : String
  pricetick : ℚ
  min_volume : ℚ
  size : ℤ
  long_pos : ℤ
  short_pos : ℤ
  net_pos : ℤ
  mid_price : ℚ
  tick : Option TickData
  portfolio : Option String

/-- `InstrumentData.__init__(contract)`. -/
def InstrumentData.new (contract : ContractData) : InstrumentData :=
  { symbol := contract.symbol
    exchange := contract.exchange
    vt_symbol := contract.vt_symbol
    pricetick := contract.pricetick
    min_volume := contract.min_volume
    size := contract.size
    long_pos := 0
    short_pos := 0
    net_pos := 0
    mid_price := 0
    tick := none
    portfolio := none }

/-- `InstrumentData.calculate_net_pos`. -/
def InstrumentData.calculate_net_pos (i : InstrumentData) : InstrumentData :=
  { i with net_pos := i.long_pos - i.short_pos }

/-- `InstrumentData.update_tick`: store the snapshot and recompute the mid
price, unconditionally. -/
def InstrumentData.update_tick (i : InstrumentData) (tick : TickData) : InstrumentData :=
  { i with tick := some tick
           mid_price := (tick.bid_price_1 + tick.ask_price_1) / 2 }

/-- `InstrumentData.update_trade`: the open/close-by-direction bookkeeping,
then `calculate_net_pos`. -/
def InstrumentData.update_trade (i : InstrumentData) (trade : TradeData) : InstrumentData :=
  let i2 :=
    if trade.direction = Direction.LONG then
      if trade.offset = Offset.OPEN then
        { i with long_pos := i.long_pos + trade.volume }
      else
        { i with short_pos := i.short_pos - trade.volume }
    else
      if trade.offset = Offset.OPEN then
        { i with short_pos := i.short_pos + trade.volume }
      else
        { i with long_pos := i.long_pos - trade.volume }
  i2.calculate_net_pos

/-- `InstrumentData.update_holding`. -/
def InstrumentData.update_holding (i : InstrumentData) (holding : PositionHolding) : InstrumentData :=
  ({ i with long_pos := holding.long_pos
            short_pos := holding.short_pos }).calculate_net_pos

/-- `InstrumentData.set_portfolio` (the reference is kept as the portfolio
name). -/
def InstrumentData.set_portfolio (i : InstrumentData) (name : String) : InstrumentData :=
  { i with portfolio := some name }

/-- A concrete instrument used by the counterexamples and witnesses below:
seven lots short, mid price 10, no quote stored yet. -/
def instEx : InstrumentData :=
  { symbol := "m2309"
    exchange := "DCE"
    vt_symbol := "m2309.DCE"
    pricetick := 1
    min_volume := 1
    size := 10
    long_pos := 0
    short_pos := 7
    net_pos := -7
    mid_price := 10
    tick := none
    portfolio := none }

/-- The underlying instrument (`UnderlyingData`, extending `InstrumentData`).
The `chains` dict maps chain symbols to chain objects in the source; the
values are the chains themselves, which in turn reference this underlying, so
the dict is modelled by its key list. -/
structure UnderlyingData extends InstrumentData where
  theo_delta : ℚ
  pos_delta : ℚ
  chains : List String

/-- `UnderlyingData.__init__(contract)`. -/
def UnderlyingData.new (contract : ContractData) : UnderlyingData :=
  { toInstrumentData := InstrumentData.new contract
    theo_delta := 0
    pos_delta := 0
    chains := [] }

/-- `UnderlyingData.add_chain`: `self.chains[chain.chain_symbol] = chain`,
modelled on the key list (re-assigning an existing key leaves the dict's key
order unchanged). -/
def UnderlyingData.add_chain (u : UnderlyingData) (chain_symbol : String) : UnderlyingData :=
  if chain_symbol ∈ u.chains then u else { u with chains := u.chains ++ [chain_symbol] }

/-- `UnderlyingData.calculate_pos_greeks`. -/
def UnderlyingData.calculate_pos_greeks (u : UnderlyingData) : UnderlyingData :=
  { u with pos_delta := u.theo_delta * (u.net_pos : ℚ) }

/-- `UnderlyingData.update_trade`: the base update, then the position-delta
recompute. -/
def UnderlyingData.update_trade (u : UnderlyingData) (trade : TradeData) : UnderlyingData :=
  ({ u with toInstrumentData := u.toInstrumentData.update_trade trade }).calculate_pos_greeks

/-- `InstrumentData.set_portfolio` invoked on an underlying. -/
def UnderlyingData.set_portfolio (u : UnderlyingData) (name : String) : UnderlyingData :=
  { u with toInstrumentData := u.toInstrumentData.set_portfolio name }

/-- An option contract (`OptionData`, extending `InstrumentData`).  The three
bound pricing callables are `None` until `set_pricing_model` runs, so they are
`Option`-valued function fields; the `chain` back-reference is kept as the
chain symbol; the `underlying` reference is embedded as the referenced
object's state. -/
structure OptionData extends InstrumentData where
  strike_price : ℚ
  chain_index : String
  option_type : ℤ
  option_expiry_days : ℤ
  time_to_expiry : ℚ
  interest_rate : ℚ
  underlying : Option UnderlyingData
  chain : Option String
  underlying_adjustment : ℚ
  calculate_price : Option (ℚ → ℚ → ℚ → ℚ → ℚ → ℤ → ℚ)
  calculate_greeks : Option (ℚ → ℚ → ℚ → ℚ → ℚ → ℤ → ℚ × ℚ × ℚ × ℚ × ℚ)
  calculate_impv : Option (ℚ → ℚ → ℚ → ℚ → ℚ → ℤ → ℚ)
  bid_impv : ℚ
  ask_impv : ℚ
  mid_impv : ℚ
  pricing_impv : ℚ
  theo_price : ℚ
  theo_delta : ℚ
  theo_gamma : ℚ
  theo_theta : ℚ
  theo_vega : ℚ
  pos_value : ℚ
  pos_delta : ℚ
  pos_gamma : ℚ
  pos_theta : ℚ
  pos_vega : ℚ

/-- `OptionData.__init__(contract)`. -/
def OptionData.new (contract : ContractData) : OptionData :=
  { toInstrumentData := InstrumentData.new contract
    strike_price := contract.option_strike
    chain_index := contract.option_index
    option_type := if contract.option_type = OptionType.CALL then 1 else -1
    option_expiry_days := contract.option_expiry_days
    time_to_expiry := contract.option_expiry_days / ANNUAL_DAYS
    interest_rate := 0
    underlying := none
    chain := none
    underlying_adjustment := 0
    calculate_price := none
    calculate_greeks := none
    calculate_impv := none
    bid_impv := 0
    ask_impv := 0
    mid_impv := 0
    pricing_impv := 0
    theo_price := 0
    theo_delta := 0
    theo_gamma := 0
    theo_theta := 0
    theo_vega := 0
    pos_value := 0
    pos_delta := 0
    pos_gamma := 0
    pos_theta := 0
    pos_vega := 0 }

/-- `OptionData.calculate_option_impv`.  Return paths in source order: no
quote stored; `self.underlying` unset (Python raises `AttributeError` reading
`mid_price` of `None`); zero underlying mid price; the bound solver still
`None` (Python raises `TypeError` calling it).  On success the ask- and
bid-side implied volatilities are solved, the mid is their average, and the
pricing implied volatility is set to the mid. -/
def OptionData.calculate_option_impv (o : OptionData) : PyResult OptionData :=
  match o.tick with
  | none => ⟨o, false⟩
  | some tick =>
    match o.underlying with
    | none => ⟨o, true⟩
    | some und =>
      if und.mid_price = 0 then ⟨o, false⟩
      else
        let underlying_price := und.mid_price + o.underlying_adjustment
        match o.calculate_impv with
        | none => ⟨o, true⟩
        | some impv =>
          let ask_impv := impv tick.ask_price_1 underlying_price o.strike_price
            o.interest_rate o.time_to_expiry o.option_type
          let bid_impv := impv tick.bid_price_1 underlying_price o.strike_price
            o.interest_rate o.time_to_expiry o.option_type
          ⟨{ o with ask_impv := ask_impv
                    bid_impv := bid_impv
                    mid_impv := (ask_impv + bid_impv) / 2
                    pricing_impv := (ask_impv + bid_impv) / 2 }, false⟩

/-- `OptionData.calculate_pos_greeks`: position Greeks from the (already
current) theoretical Greeks and the net position. -/
def OptionData.calculate_pos_greeks (o : OptionData) : OptionData :=
  { o with pos_value := o.theo_price * (o.size : ℚ) * (o.net_pos : ℚ)
           pos_delta := o.theo_delta * (o.net_pos : ℚ)
           pos_gamma := o.theo_gamma * (o.net_pos : ℚ)
           pos_theta := o.theo_theta * (o.net_pos : ℚ)
           pos_vega := o.theo_vega * (o.net_pos : ℚ) }

/-- `OptionData.update_tick`: the base update, then the implied-volatility
recompute. -/
def OptionData.update_tick (o : OptionData) (tick : TickData) : PyResult OptionData :=
  ({ o with toInstrumentData := o.toInstrumentData.update_tick tick }).calculate_option_impv

/-- `OptionData.update_trade`: the base update, then the position-Greeks
recompute. -/
def OptionData.update_trade (o : OptionData) (trade : TradeData) : OptionData :=
  ({ o with toInstrumentData := o.toInstrumentData.update_trade trade }).calculate_pos_greeks

/-- `OptionData.set_chain` (reference kept as the chain symbol). -/
def OptionData.set_chain (o : OptionData) (chain_symbol : String) : OptionData :=
  { o with chain := some chain_symbol }

/-- `OptionData.set_underlying` (the referenced underlying's state is
embedded). -/
def OptionData.set_underlying (o : OptionData) (underlying : UnderlyingData) : OptionData :=
  { o with underlying := some underlying }

/-- `OptionData.set_interest_rate`. -/
def OptionData.set_interest_rate (o : OptionData) (interest_rate : ℚ) : OptionData :=
  { o with interest_rate := interest_rate }

/-- `InstrumentData.set_portfolio` invoked on an option. -/
def OptionData.set_portfolio (o : OptionData) (name : String) : OptionData :=
  { o with toInstrumentData := o.toInstrumentData.set_portfolio name }

/-- An expiry chain (`ChainData`).  `options` (keyed by instrument symbol),
`calls` and `puts` (keyed by chain rank index) hold references to the same
option objects in the source; here each mapping carries the option state that
was stored into it.  The fill path (`update_trade`) mutates an option through
`options`, exactly as the source does; no claim in this development reads the
mutated fields back through `calls`/`puts`, whose entries only supply the
immutable `strike_price`/`chain_index` and quote-driven `mid_price` fields.
The `portfolio` back-reference is kept as the portfolio name.  `indexes` is
annotated `List[float]` in the source but actually holds the `str` rank
indexes it appends. -/
structure ChainData where
  chain_symbol : String
  long_pos : ℤ
  short_pos : ℤ
  net_pos : ℤ
  pos_value : ℚ
  pos_delta : ℚ
  pos_gamma : ℚ
  pos_theta : ℚ
  pos_vega : ℚ
  underlying : Option UnderlyingData
  options : List (String × OptionData)
  calls : List (String × OptionData)
  puts : List (String × OptionData)
  portfolio : Option String
  indexes : List String
  atm_price : ℚ
  atm_index : String
  underlying_adjustment : ℚ
  days_to_expiry : ℤ

/-- `ChainData.__init__(chain_symbol)`. -/
def ChainData.new (chain_symbol : String) : ChainData :=
  { chain_symbol := chain_symbol
    long_pos := 0
    short_pos := 0
    net_pos := 0
    pos_value := 0
    pos_delta := 0
    pos_gamma := 0
    pos_theta := 0
    pos_vega := 0
    underlying := none
    options := []
    calls := []
    puts := []
    portfolio := none
    indexes := []
    atm_price := 0
    atm_index := ""
    underlying_adjustment := 0
    days_to_expiry := 0 }

/-- `ChainData.add_option`: insert into `options` and into `calls` or `puts`
by rank index, bind the option's chain reference (the source mutates the one
shared object after inserting it, so the bound state is what every mapping
holds), insert the rank index into the sorted index list if new, and record
this option's days-to-expiry. -/
def ChainData.add_option (c : ChainData) (option : OptionData) : ChainData :=
  let option2 := option.set_chain c.chain_symbol
  { c with
    options := dictSet c.options option2.vt_symbol option2
    calls := if option2.option_type > 0 then dictSet c.calls option2.chain_index option2
             else c.calls
    puts := if option2.option_type > 0 then c.puts
            else dictSet c.puts option2.chain_index option2
    indexes := if option2.chain_index ∈ c.indexes then c.indexes
               else (c.indexes ++ [option2.chain_index]).mergeSort (fun a b => a ≤ b)
    days_to_expiry := option2.option_expiry_days }

/-- `ChainData.calculate_pos_greeks`: the full-rescan aggregation — zero every
aggregate, then sum long/short/value/Greeks over every member option with a
non-zero net position, and recompute the net quantity. -/
def ChainData.calculate_pos_greeks (c : ChainData) : ChainData :=
  let live := c.options.filter (fun p => p.2.net_pos ≠ 0)
  let lp := (live.map (fun p => p.2.long_pos)).sum
  let sp := (live.map (fun p => p.2.short_pos)).sum
  { c with
    long_pos := lp
    short_pos := sp
    net_pos := lp - sp
    pos_value := (live.map (fun p => p.2.pos_value)).sum
    pos_delta := (live.map (fun p => p.2.pos_delta)).sum
    pos_gamma := (live.map (fun p => p.2.pos_gamma)).sum
    pos_theta := (live.map (fun p => p.2.pos_theta)).sum
    pos_vega := (live.map (fun p => p.2.pos_vega)).sum }

/-- `ChainData.update_trade`: look up the traded option (`KeyError`, i.e.
`none`, when the symbol is not a member), subtract its old contribution from
the chain aggregates, apply the fill to the option, re-add its new
contribution, and recompute net = long − short. -/
def ChainData.update_trade (c : ChainData) (trade : TradeData) : Option ChainData :=
  match dictGet c.options trade.vt_symbol with
  | none => none
  | some option =>
    let option2 := option.update_trade trade
    some { c with
      options := dictSet c.options trade.vt_symbol option2
      long_pos := c.long_pos - option.long_pos + option2.long_pos
      short_pos := c.short_pos - option.short_pos + option2.short_pos
      pos_value := c.pos_value - option.pos_value + option2.pos_value
      pos_delta := c.pos_delta - option.pos_delta + option2.pos_delta
      pos_gamma := c.pos_gamma - option.pos_gamma + option2.pos_gamma
      pos_theta := c.pos_theta - option.pos_theta + option2.pos_theta
      pos_vega := c.pos_vega - option.pos_vega + option2.pos_vega
      net_pos := (c.long_pos - option.long_pos + option2.long_pos)
               - (c.short_pos - option.short_pos + option2.short_pos) }

/-- A sequence of fills pushed through the chain's incremental fill path;
stops (`none`) where Python's `update_trade` would raise `KeyError`. -/
def ChainData.apply_trades : ChainData → List TradeData → Option ChainData
  | c, [] => some c
  | c, trade :: rest =>
    match c.update_trade trade with
    | none => none
    | some c2 => c2.apply_trades rest

/-- `ChainData.set_underlying`: `underlying.add_chain(self)` mutates the
shared underlying first, then the chain and every member option store the
(already mutated) underlying.  The mutated underlying is returned alongside
so a caller holding the same reference can observe the mutation. -/
def ChainData.set_underlying (c : ChainData) (underlying : UnderlyingData) :
    ChainData × UnderlyingData :=
  let u2 := underlying.add_chain c.chain_symbol
  ({ c with underlying := some u2
            options := c.options.map (fun p => (p.1, p.2.set_underlying u2)) }, u2)

/-- `ChainData.set_portfolio`: the source iterates `self.options` — the dict
KEYS, which are strings — and calls `option.set_portfolio(portfolio)` on each
key, so the first iteration of a non-empty chain raises `AttributeError`; with
an empty chain the loop body never runs.  In both cases `self.portfolio` is
never assigned. -/
def ChainData.set_portfolio (c : ChainData) (_name : String) : PyResult ChainData :=
  if c.options.isEmpty then ⟨c, false⟩ else ⟨c, true⟩

/-- `ChainData.calculate_atm_price`.  Reading `self.underlying.mid_price`
raises when no underlying is linked.  The loop keeps the strike whose distance
to the underlying mid price is strictly smaller than the best so far, with a
distance of zero treated as "no best yet" (`if not atm_distance`); the fold
also carries the loop variable `call`, because after the loop the source reads
`call.chain_index` — the index of the LAST iterated call.  With no calls the
loop variable is unbound: `self.atm_price = atm_price` still executes (writing
0) and then `call.chain_index` raises `NameError`, leaving `atm_index`
untouched. -/
def ChainData.calculate_atm_price (c : ChainData) : PyResult ChainData :=
  match c.underlying with
  | none => ⟨c, true⟩
  | some underlying =>
    let underlying_price := underlying.mid_price
    let fold := c.calls.foldl
      (fun (acc : ℚ × ℚ × Option OptionData) p =>
        let price_distance := |underlying_price - p.2.strike_price|
        if acc.1 = 0 ∨ price_distance < acc.1 then
          (price_distance, p.2.strike_price, some p.2)
        else
          (acc.1, acc.2.1, some p.2))
      (0, 0, none)
    match fold.2.2 with
    | none => ⟨{ c with atm_price := fold.2.1 }, true⟩
    | some call => ⟨{ c with atm_price := fold.2.1, atm_index := call.chain_index }, false⟩

/-- `ChainData.calculate_underlying_adjustment`: a guarded no-op when no
at-the-money strike is set; otherwise look up the at-the-money call and put
(`KeyError` when the stored index is missing, `AttributeError` when no
underlying is linked — both before any field write) and store
(call mid − put mid + atm strike) − underlying mid. -/
def ChainData.calculate_underlying_adjustment (c : ChainData) : PyResult ChainData :=
  if c.atm_price = 0 then ⟨c, false⟩
  else
    match dictGet c.calls c.atm_index, dictGet c.puts c.atm_index, c.underlying with
    | some atm_call, some atm_put, some underlying =>
      let synthetic_price := atm_call.mid_price - atm_put.mid_price + c.atm_price
      ⟨{ c with underlying_adjustment := synthetic_price - underlying.mid_price }, false⟩
    | _, _, _ => ⟨c, true⟩

/-- The portfolio root (`PortfolioData`).  `_options`/`_chains` are the master
registries and `options`/`chains`/`underlyings` the active ones; in the source
the active registries hold references to the very objects the master
registries own, so every function below that mutates a shared object writes
the mutated state back into each registry that holds it.  The source
initializer does not create a `pos_value` attribute (it would only appear on
the first call of the portfolio-level `calculate_pos_greeks`); it is modelled
as a field initialized to 0. -/
structure PortfolioData where
  name : String
  long_pos : ℤ
  short_pos : ℤ
  net_pos : ℤ
  pos_value : ℚ
  pos_delta : ℚ
  pos_gamma : ℚ
  pos_theta : ℚ
  pos_vega : ℚ
  master_options : List (String × OptionData)
  master_chains : List (String × ChainData)
  options : List (String × OptionData)
  chains : List (String × ChainData)
  underlyings : List (String × UnderlyingData)

/-- `PortfolioData.__init__(name)`. -/
def PortfolioData.new (name : String) : PortfolioData :=
  { name := name
    long_pos := 0
    short_pos := 0
    net_pos := 0
    pos_value := 0
    pos_delta := 0
    pos_gamma := 0
    pos_theta := 0
    pos_vega := 0
    master_options := []
    master_chains := []
    options := []
    chains := []
    underlyings := [] }

/-- `PortfolioData.get_chain`: fetch the master chain, or create it, call its
`set_portfolio` (a fresh chain has no options, so the key-iterating loop in
`ChainData.set_portfolio` runs zero times and cannot raise — and assigns
nothing), and record it in the master registry.  Returns the chain together
with the updated portfolio. -/
def PortfolioData.get_chain (p : PortfolioData) (chain_symbol : String) :
    ChainData × PortfolioData :=
  match dictGet p.master_chains chain_symbol with
  | some chain => (chain, p)
  | none =>
    let chain := ((ChainData.new chain_symbol).set_portfolio p.name).state
    (chain, { p with master_chains := dictSet p.master_chains chain_symbol chain })

/-- `PortfolioData.add_option(contract)`: build the option, bind its portfolio
reference, store it in the master option registry, derive the chain symbol
from the option underlying and the exchange, fetch-or-create the master chain
and add the option to it (the chain object is shared with the registry, so the
mutated chain is written back). -/
def PortfolioData.add_option (p : PortfolioData) (contract : ContractData) : PortfolioData :=
  let option := (OptionData.new contract).set_portfolio p.name
  let p1 := { p with master_options := dictSet p.master_options contract.vt_symbol option }
  let chain_symbol := contract.option_underlying ++ "." ++ contract.exchange
  let gc := p1.get_chain chain_symbol
  let chain2 := gc.1.add_option option
  { gc.2 with master_chains := dictSet gc.2.master_chains chain_symbol chain2 }

/-- `PortfolioData.set_chain_underlying(chain_symbol, contract)`: fetch or
create the Underlying for the contract, fetch or create the master chain, link
chain and underlying (`ChainData.set_underlying` mutates the shared underlying
via `add_chain`, so the mutated underlying is written back to the registry and
the mutated chain to both chain registries), promote the chain into the active
chain registry and each of its options into the active option registry. -/
def PortfolioData.set_chain_underlying (p : PortfolioData) (chain_symbol : String)
    (contract : ContractData) : PortfolioData :=
  let pre : UnderlyingData × PortfolioData :=
    match dictGet p.underlyings contract.vt_symbol with
    | some u => (u, p)
    | none =>
      let u := (UnderlyingData.new contract).set_portfolio p.name
      (u, { p with underlyings := dictSet p.underlyings contract.vt_symbol u })
  let gc := pre.2.get_chain chain_symbol
  let su := gc.1.set_underlying pre.1
  let p3 := { gc.2 with
    underlyings := dictSet gc.2.underlyings contract.vt_symbol su.2
    master_chains := dictSet gc.2.master_chains chain_symbol su.1
    chains := dictSet gc.2.chains chain_symbol su.1 }
  { p3 with options :=
      (su.1.options.foldl (fun acc q => dictSet acc q.2.vt_symbol q.2) p3.options) }

/-- Looking up the key just assigned returns the assigned value. -/
theorem dictGet_dictSet_self {α : Type} (l : List (String × α)) (k : String) (v : α) :
    dictGet (dictSet l k v) k = some v := by
  induction l with
  | nil => simp [dictGet, dictSet]
  | cons hd tl ih =>
    obtain ⟨k0, v0⟩ := hd
    by_cases h : k0 = k <;> simp [dictGet, dictSet, h, ih]

/-- Looking up a different key is unaffected by an assignment. -/
theorem dictGet_dictSet_ne {α : Type} (l : List (String × α)) (k k2 : String) (v : α)
    (h : k2 ≠ k) : dictGet (dictSet l k2 v) k = dictGet l k := by
  induction l with
  | nil => simp [dictGet, dictSet, h]
  | cons hd tl ih =>
    obtain ⟨k0, v0⟩ := hd
    by_cases h0 : k0 = k2
    · have hk : ¬ (k0 = k) := by rw [h0]; exact h
      simp [dictGet, dictSet, h0, hk, h]
    · simp [dictGet, dictSet, h0, ih]

/-- Re-assigning the same key collapses to the last assignment. -/
theorem dictSet_dictSet_self {α : Type} (l : List (String × α)) (k : String) (v w : α) :
    dictSet (dictSet l k v) k w = dictSet l k w := by
  induction l with
  | nil => simp [dictSet]
  | cons hd tl ih =>
    obtain ⟨k0, v0⟩ := hd
    by_cases h : k0 = k <;> simp [dictSet, h, ih]

/-- Assigning a key the value it already holds leaves the dict unchanged. -/
theorem dictSet_of_dictGet {α : Type} (l : List (String × α)) (k : String) (v : α)
    (h : dictGet l k = some v) : dictSet l k v = l := by
  induction l with
  | nil => simp [dictGet] at h
  | cons hd tl ih =>
    obtain ⟨k0, v0⟩ := hd
    by_cases h0 : k0 = k
    · simp [dictGet, h0] at h
      simp [dictSet, h0, h]
    · simp [dictGet, h0] at h
      simp [dictSet, h0, ih h]

/-- Every entry of an assigned dict is an old entry or carries the assigned
value. -/
theorem mem_dictSet {α : Type} (l : List (String × α)) (k : String) (v : α) :
    ∀ q ∈ dictSet l k v, q ∈ l ∨ q.2 = v := by
  induction l with
  | nil =>
    intro q hq
    simp only [dictSet] at hq
    right
    rw [List.mem_singleton.mp hq]
  | cons hd tl ih =>
    obtain ⟨k0, v0⟩ := hd
    intro q hq
    by_cases h : k0 = k
    · simp only [dictSet, if_pos h] at hq
      rcases List.mem_cons.mp hq with h2 | h2
      · right; rw [h2]
      · left; exact List.mem_cons_of_mem _ h2
    · simp only [dictSet, if_neg h] at hq
      rcases List.mem_cons.mp hq with h2 | h2
      · left; rw [h2]; exact List.mem_cons_self _ _
      · rcases ih q h2 with h3 | h3
        · left; exact List.mem_cons_of_mem _ h3
        · right; exact h3

/-- Effect of a dict assignment on a value-wise sum, given the value the key
held before. -/
theorem dictSet_map_sum {α : Type} {β : Type} [AddCommGroup β] (g : α → β)
    (l : List (String × α)) (k : String) (v w : α) (h : dictGet l k = some v) :
    ((dictSet l k w).map (fun q => g q.2)).sum
      = (l.map (fun q => g q.2)).sum - g v + g w := by
  induction l with
  | nil => simp [dictGet] at h
  | cons hd tl ih =>
    obtain ⟨k0, v0⟩ := hd
    by_cases h0 : k0 = k
    · simp [dictGet, h0] at h
      subst h
      simp [dictSet, h0]
      abel
    · simp [dictGet, h0] at h
      simp [dictSet, h0, ih h]
      abel

/-- A sum of pointwise differences splits into a difference of sums. -/
theorem sum_map_sub {α β : Type} [AddCommGroup β] (f g : α → β) (l : List α) :
    (l.map (fun x => f x - g x)).sum = (l.map f).sum - (l.map g).sum := by
  induction l with
  | nil => simp
  | cons hd tl ih =>
    simp [ih]
    abel

/-- Entries whose net position is zero can be dropped from a value-wise sum
whenever the summed value vanishes on them (which is what the chain rescan's
`if option.net_pos:` filter relies on). -/
theorem sum_filter_net_pos {β : Type} [AddCommMonoid β] (g : OptionData → β)
    (l : List (String × OptionData))
    (h : ∀ q ∈ l, q.2.net_pos = 0 → g q.2 = 0) :
    ((l.filter (fun q => q.2.net_pos ≠ 0)).map (fun q => g q.2)).sum
      = (l.map (fun q => g q.2)).sum := by
  induction l with
  | nil => simp
  | cons hd tl ih =>
    have ihtl := ih (fun q hq => h q (List.mem_cons_of_mem _ hq))
    rw [List.filter_cons]
    by_cases hz : hd.2.net_pos = 0
    · have hg : g hd.2 = 0 := h hd (List.mem_cons_self _ _) hz
      rw [if_neg (by simp [hz])]
      rw [ihtl, List.map_cons, List.sum_cons, hg, zero_add]
    · rw [if_pos (by simp [hz])]
      rw [List.map_cons, List.sum_cons, ihtl, List.map_cons, List.sum_cons]

/-- Folding `dict[key b] = val b` over entries none of which carry the key `k`
leaves the lookup at `k` unchanged. -/
theorem foldl_dictSet_get_ne {α β : Type} (key : β → String) (val : β → α)
    (l : List β) (acc : List (String × α)) (k : String)
    (h : ∀ b ∈ l, key b ≠ k) :
    dictGet (l.foldl (fun a b => dictSet a (key b) (val b)) acc) k = dictGet acc k := by
  induction l generalizing acc with
  | nil => rfl
  | cons hd tl ih =>
    simp only [List.foldl_cons]
    rw [ih (dictSet acc (key hd) (val hd)) (fun b hb => h b (List.mem_cons_of_mem _ hb))]
    exact dictGet_dictSet_ne acc k (key hd) (val hd) (h hd (List.mem_cons_self _ _))

/-- After folding `dict[key b] = val b` over entries with pairwise distinct
keys, each entry's key looks up its value. -/
theorem foldl_dictSet_get {α β : Type} (key : β → String) (val : β → α)
    (l : List β) (acc : List (String × α)) (hnd : (l.map key).Nodup) :
    ∀ b ∈ l, dictGet (l.foldl (fun a b2 => dictSet a (key b2) (val b2)) acc) (key b)
      = some (val b) := by
  induction l generalizing acc with
  | nil => intro b hb; cases hb
  | cons hd tl ih =>
    rw [List.map_cons] at hnd
    have hnd2 : key hd ∉ tl.map key ∧ (tl.map key).Nodup := List.nodup_cons.mp hnd
    intro b hb
    rcases List.mem_cons.mp hb with hb2 | hb2
    · subst hb2
      simp only [List.foldl_cons]
      rw [foldl_dictSet_get_ne key val tl _ (key b)
        (fun b2 hb3 he => hnd2.1 (he ▸ List.mem_map_of_mem key hb3))]
      exact dictGet_dictSet_self acc (key b) (val b)
    · simp only [List.foldl_cons]
      exact ih _ hnd2.2 b hb2

/-- Folding `dict[key b] = val b` over entries the dict already maps that way
is the identity. -/
theorem foldl_dictSet_id {α β : Type} (key : β → String) (val : β → α)
    (l : List β) (acc : List (String × α))
    (h : ∀ b ∈ l, dictGet acc (key b) = some (val b)) :
    l.foldl (fun a b => dictSet a (key b) (val b)) acc = acc := by
  induction l with
  | nil => rfl
  | cons hd tl ih =>
    simp only [List.foldl_cons]
    rw [dictSet_of_dictGet acc (key hd) (val hd) (h hd (List.mem_cons_self _ _))]
    exact ih (fun b hb => h b (List.mem_cons_of_mem _ hb))

/-- Replaying the same batch of `dict[key b] = val b` assignments a second
time changes nothing, provided the batch's keys are pairwise distinct. -/
theorem foldl_dictSet_twice {α β : Type} (key : β → String) (val : β → α)
    (l : List β) (acc : List (String × α)) (hnd : (l.map key).Nodup) :
    l.foldl (fun a b => dictSet a (key b) (val b))
        (l.foldl (fun a b => dictSet a (key b) (val b)) acc)
      = l.foldl (fun a b => dictSet a (key b) (val b)) acc :=
  foldl_dictSet_id key val l _ (foldl_dictSet_get key val l acc hnd)

/-- Per-option bookkeeping coherence: the net position is long − short and
the position Greeks carry the formulas `calculate_pos_greeks` writes.  Every
freshly constructed option satisfies it (everything is zero) and every
`OptionData.update_trade` re-establishes it. -/
def posGreeksConsistent (o : OptionData) : Prop :=
  o.net_pos = o.long_pos - o.short_pos ∧
  o.pos_value = o.theo_price * (o.size : ℚ) * (o.net_pos : ℚ) ∧
  o.pos_delta = o.theo_delta * (o.net_pos : ℚ) ∧
  o.pos_gamma = o.theo_gamma * (o.net_pos : ℚ) ∧
  o.pos_theta = o.theo_theta * (o.net_pos : ℚ) ∧
  o.pos_vega = o.theo_vega * (o.net_pos : ℚ)

/-- Chain bookkeeping coherence: every member option is coherent and each
chain aggregate equals the corresponding sum over ALL member options (which
is what the incremental fill path maintains).  A fresh chain (all aggregates
zero, no options) satisfies it, as does a chain populated by `add_option`
with fresh options. -/
def chainConsistent (c : ChainData) : Prop :=
  (∀ q ∈ c.options, posGreeksConsistent q.2) ∧
  c.long_pos = (c.options.map (fun q => q.2.long_pos)).sum ∧
  c.short_pos = (c.options.map (fun q => q.2.short_pos)).sum ∧
  c.net_pos = c.long_pos - c.short_pos ∧
  c.pos_value = (c.options.map (fun q => q.2.pos_value)).sum ∧
  c.pos_delta = (c.options.map (fun q => q.2.pos_delta)).sum ∧
  c.pos_gamma = (c.options.map (fun q => q.2.pos_gamma)).sum ∧
  c.pos_theta = (c.options.map (fun q => q.2.pos_theta)).sum ∧
  c.pos_vega = (c.options.map (fun q => q.2.pos_vega)).sum

/-- `OptionData.update_trade` always leaves the option coherent: the base
update ends with `calculate_net_pos` and the override ends with
`calculate_pos_greeks`. -/
theorem posGreeksConsistent_update_trade (o : OptionData) (t : TradeData) :
    posGreeksConsistent (o.update_trade t) := by
  unfold posGreeksConsistent OptionData.update_trade OptionData.calculate_pos_greeks
    InstrumentData.update_trade InstrumentData.calculate_net_pos
  split_ifs <;> simp

/-- One incremental fill preserves chain coherence: the subtract/re-add
bookkeeping in `ChainData.update_trade` keeps every aggregate equal to its
sum over all member options. -/
theorem chainConsistent_update_trade (c c2 : ChainData) (t : TradeData)
    (hc : chainConsistent c) (h : c.update_trade t = some c2) : chainConsistent c2 := by
  unfold ChainData.update_trade at h
  cases hg : dictGet c.options t.vt_symbol with
  | none => rw [hg] at h; cases h
  | some o =>
    rw [hg] at h
    injection h with h2
    subst h2
    obtain ⟨hmem, hlp, hsp, hnp, hv, hd, hgm, hth, hvg⟩ := hc
    refine ⟨?_, ?_, ?_, ?_, ?_, ?_, ?_, ?_, ?_⟩ <;> dsimp only
    · intro q hq
      rcases mem_dictSet c.options t.vt_symbol (o.update_trade t) q hq with h2 | h2
      · exact hmem q h2
      · rw [h2]; exact posGreeksConsistent_update_trade o t
    · rw [dictSet_map_sum (fun x => x.long_pos) c.options t.vt_symbol o _ hg, ← hlp]
    · rw [dictSet_map_sum (fun x => x.short_pos) c.options t.vt_symbol o _ hg, ← hsp]
    · rw [dictSet_map_sum (fun x => x.pos_value) c.options t.vt_symbol o _ hg, ← hv]
    · rw [dictSet_map_sum (fun x => x.pos_delta) c.options t.vt_symbol o _ hg, ← hd]
    · rw [dictSet_map_sum (fun x => x.pos_gamma) c.options t.vt_symbol o _ hg, ← hgm]
    · rw [dictSet_map_sum (fun x => x.pos_theta) c.options t.vt_symbol o _ hg, ← hth]
    · rw [dictSet_map_sum (fun x => x.pos_vega) c.options t.vt_symbol o _ hg, ← hvg]

/-- Chain coherence is preserved along any successful fill sequence. -/
theorem chainConsistent_apply_trades (c c2 : ChainData) (ts : List TradeData)
    (hc : chainConsistent c) (h : c.apply_trades ts = some c2) : chainConsistent c2 := by
  induction ts generalizing c with
  | nil =>
    unfold ChainData.apply_trades at h
    injection h with h2
    rw [← h2]
    exact hc
  | cons t rest ih =>
    unfold ChainData.apply_trades at h
    cases hu : c.update_trade t with
    | none => rw [hu] at h; cases h
    | some c1 =>
      rw [hu] at h
      exact ih c1 (chainConsistent_update_trade c c1 t hc hu) h

/-- On a coherent chain the full rescan reproduces the incrementally
maintained net quantity and position value/Greeks (the rescan's long and
short quantities, by contrast, drop the contributions of options whose net
position is zero). -/
theorem calculate_pos_greeks_eq_of_consistent (c : ChainData) (hc : chainConsistent c) :
    (c.calculate_pos_greeks).net_pos = c.net_pos ∧
    (c.calculate_pos_greeks).pos_value = c.pos_value ∧
    (c.calculate_pos_greeks).pos_delta = c.pos_delta ∧
    (c.calculate_pos_greeks).pos_gamma = c.pos_gamma ∧
    (c.calculate_pos_greeks).pos_theta = c.pos_theta ∧
    (c.calculate_pos_greeks).pos_vega = c.pos_vega := by
  obtain ⟨hmem, hlp, hsp, hnp, hv, hd, hgm, hth, hvg⟩ := hc
  unfold ChainData.calculate_pos_greeks
  dsimp only
  refine ⟨?_, ?_, ?_, ?_, ?_, ?_⟩
  · rw [← sum_map_sub]
    rw [sum_filter_net_pos (fun x => x.long_pos - x.short_pos) c.options
      (fun q hq hz => by
        have h1 := (hmem q hq).1
        show q.2.long_pos - q.2.short_pos = 0
        omega)]
    rw [sum_map_sub, ← hlp, ← hsp, hnp]
  · rw [sum_filter_net_pos (fun x => x.pos_value) c.options
      (fun q hq hz => by
        show q.2.pos_value = 0
        rw [(hmem q hq).2.1, hz]; norm_num), ← hv]
  · rw [sum_filter_net_pos (fun x => x.pos_delta) c.options
      (fun q hq hz => by
        show q.2.pos_delta = 0
        rw [(hmem q hq).2.2.1, hz]; norm_num), ← hd]
  · rw [sum_filter_net_pos (fun x => x.pos_gamma) c.options
      (fun q hq hz => by
        show q.2.pos_gamma = 0
        rw [(hmem q hq).2.2.2.1, hz]; norm_num), ← hgm]
  · rw [sum_filter_net_pos (fun x => x.pos_theta) c.options
      (fun q hq hz => by
        show q.2.pos_theta = 0
        rw [(hmem q hq).2.2.2.2.1, hz]; norm_num), ← hth]
  · rw [sum_filter_net_pos (fun x => x.pos_vega) c.options
      (fun q hq hz => by
        show q.2.pos_vega = 0
        rw [(hmem q hq).2.2.2.2.2, hz]; norm_num), ← hvg]

/-- A concrete underlying at a given mid price (fixture for the chain-level
examples). -/
def sampleUnderlying (mid : ℚ) : UnderlyingData :=
  { toInstrumentData :=
    { symbol := "510050"
      exchange := "SSE"
      vt_symbol := "510050.SSE"
      pricetick := 1/1000
      min_volume := 1
      size := 1
      long_pos := 0
      short_pos := 0
      net_pos := 0
      mid_price := mid
      tick := none
      portfolio := none }
    theo_delta := 0
    pos_delta := 0
    chains := ["510050_O.SSE"] }

/-- A concrete option at a given symbol, strike, rank index, option type and
mid price, with all positions and Greeks zero (fixture for the chain-level
examples). -/
def sampleOption (vt : String) (strike : ℚ) (idx : String) (ot : ℤ) (mid : ℚ) : OptionData :=
  { toInstrumentData :=
    { symbol := vt
      exchange := "SSE"
      vt_symbol := vt
      pricetick := 1/10000
      min_volume := 1
      size := 10000
      long_pos := 0
      short_pos := 0
      net_pos := 0
      mid_price := mid
      tick := none
      portfolio := none }
    strike_price := strike
    chain_index := idx
    option_type := ot
    option_expiry_days := 30
    time_to_expiry := 30 / ANNUAL_DAYS
    interest_rate := 0
    underlying := none
    chain := some "510050_O.SSE"
    underlying_adjustment := 0
    calculate_price := none
    calculate_greeks := none
    calculate_impv := none
    bid_impv := 0
    ask_impv := 0
    mid_impv := 0
    pricing_impv := 0
    theo_price := 0
    theo_delta := 0
    theo_gamma := 0
    theo_theta := 0
    theo_vega := 0
    pos_value := 0
    pos_delta := 0
    pos_gamma := 0
    pos_theta := 0
    pos_vega := 0 }

/-- The spec's at-the-money example: calls at strikes 95, 100, 105 (rank
indexes "95", "100", "105", iterated in that insertion order), underlying mid
price 101. -/
def chainAtm : ChainData :=
  { ChainData.new "510050_O.SSE" with
    underlying := some (sampleUnderlying 101)
    calls := [("95", sampleOption "c95.SSE" 95 "95" 1 0),
              ("100", sampleOption "c100.SSE" 100 "100" 1 0),
              ("105", sampleOption "c105.SSE" 105 "105" 1 0)] }

/-- The same chain with the underlying mid price sitting exactly on the first
strike. -/
def chainAtm95 : ChainData :=
  { chainAtm with underlying := some (sampleUnderlying 95) }

/-- A chain with a single call at strike 5, an underlying whose mid price is
missing (0), and a previously selected at-the-money strike of 100. -/
def chainAtm0 : ChainData :=
  { ChainData.new "510050_O.SSE" with
    underlying := some (sampleUnderlying 0)
    calls := [("5", sampleOption "c5.SSE" 5 "5" 1 0)]
    atm_price := 100
    atm_index := "100" }

/-- A chain with no calls at all and a previously selected at-the-money
strike of 100. -/
def chainAtmEmpty : ChainData :=
  { ChainData.new "510050_O.SSE" with
    underlying := some (sampleUnderlying 0)
    atm_price := 100
    atm_index := "100" }

/-- C1: on the spec's own example (calls at 95/100/105, underlying mid 101)
the code selects `atm_price = 100` as the claim says, but stores
`atm_index = "105"` — the rank index of the LAST iterated call, not of the
selected strike, because the source reads the leaked loop variable after the
loop.  Moreover the `if not atm_distance` sentinel treats an exact-match
distance of zero as "no best yet": with the underlying mid exactly on the
first strike (95) a later, strictly farther strike wins (`atm_price = 100`
although strike 95 is at distance 0 < 5). -/
theorem calculate_atm_price_index_bug :
    (chainAtm.calculate_atm_price).state.atm_price = 100 ∧
    (chainAtm.calculate_atm_price).state.atm_index = "105" ∧
    (chainAtm.calculate_atm_price).raised = false ∧
    (chainAtm95.calculate_atm_price).state.atm_price = 100 ∧
    |(95 : ℚ) - 95| < |(95 : ℚ) - 100| := by
  refine ⟨by with_unfolding_all decide, by with_unfolding_all decide,
    by with_unfolding_all decide, by with_unfolding_all decide, by norm_num⟩

/-- C2 counterexample: `calculate_atm_price` is NOT a no-op when the
underlying mid price is missing (0) — it overwrites the previously selected
strike 100 with 5 — nor when the chain has no calls — it overwrites
`atm_price` with 0 and raises, instead of retaining the stale state. -/
theorem calculate_atm_price_not_noop_cex :
    (chainAtm0.calculate_atm_price).state.atm_price = 5 ∧
    chainAtm0.atm_price = 100 ∧
    (chainAtm0.calculate_atm_price).raised = false ∧
    (chainAtmEmpty.calculate_atm_price).state.atm_price = 0 ∧
    chainAtmEmpty.atm_price = 100 ∧
    (chainAtmEmpty.calculate_atm_price).raised = true := by
  refine ⟨by with_unfolding_all decide, by with_unfolding_all decide,
    by with_unfolding_all decide, by with_unfolding_all decide,
    by with_unfolding_all decide, by with_unfolding_all decide⟩

/-- C2 (amended): `calculate_atm_price` checks no preconditions at all.  With
no calls it overwrites `atm_price` with 0 (clobbering the stale value) and
raises an unbound-local error before touching `atm_index`; with the
underlying mid price missing (0) it still runs the selection — a chain with a
single call gets that call's strike and rank index stored, whatever the
previous state was. -/
theorem calculate_atm_price_unguarded (c : ChainData) (u : UnderlyingData)
    (i : String) (o : OptionData) (hu : c.underlying = some u) :
    (c.calls = [] → c.calculate_atm_price = ⟨{ c with atm_price := 0 }, true⟩) ∧
    (u.mid_price = 0 → c.calls = [(i, o)] →
      c.calculate_atm_price
        = ⟨{ c with atm_price := o.strike_price, atm_index := o.chain_index }, false⟩) := by
  constructor
  · intro he
    unfold ChainData.calculate_atm_price
    rw [hu, he]
    rfl
  · intro _hm he
    unfold ChainData.calculate_atm_price
    rw [hu, he]
    rfl

/-- Witness for the amended C2 statement at the concrete single-call chain
with a missing underlying mid price. -/
theorem calculate_atm_price_unguarded_witness :
    chainAtm0.calculate_atm_price
      = ⟨{ chainAtm0 with atm_price := 5, atm_index := "5" }, false⟩ :=
  (calculate_atm_price_unguarded chainAtm0 (sampleUnderlying 0) "5"
    (sampleOption "c5.SSE" 5 "5" 1 0) rfl).2 rfl rfl

/-- The spec's synthetic-adjustment example: at-the-money call mid 6, put mid
1, strike 100, underlying mid 104.5. -/
def chainAdj : ChainData :=
  { ChainData.new "510050_O.SSE" with
    underlying := some (sampleUnderlying (209/2))
    calls := [("100", sampleOption "c100.SSE" 100 "100" 1 6)]
    puts := [("100", sampleOption "p100.SSE" 100 "100" (-1) 1)]
    atm_price := 100
    atm_index := "100" }

/-- A chain with no at-the-money strike selected yet. -/
def chainNoAtm : ChainData :=
  { ChainData.new "IO.CFFEX" with underlying := some (sampleUnderlying 4) }

/-- C7: `calculate_underlying_adjustment` is a guarded no-op when no
at-the-money strike is set (`atm_price = 0`), and otherwise — whenever the
stored index resolves to an at-the-money call and put and an underlying is
linked — stores (at-the-money call mid − at-the-money put mid + at-the-money
strike) − underlying mid, leaving everything else unchanged. -/
theorem calculate_underlying_adjustment_spec (c : ChainData) :
    (c.atm_price = 0 → c.calculate_underlying_adjustment = ⟨c, false⟩) ∧
    (∀ atm_call atm_put u, c.atm_price ≠ 0 →
      dictGet c.calls c.atm_index = some atm_call →
      dictGet c.puts c.atm_index = some atm_put →
      c.underlying = some u →
      c.calculate_underlying_adjustment
        = ⟨{ c with underlying_adjustment :=
              atm_call.mid_price - atm_put.mid_price + c.atm_price - u.mid_price },
           false⟩) := by
  constructor
  · intro h
    unfold ChainData.calculate_underlying_adjustment
    rw [if_pos h]
  · intro atm_call atm_put u h hc hp hu
    unfold ChainData.calculate_underlying_adjustment
    rw [if_neg h, hc, hp, hu]

/-- Witness for C7 at the spec's example numbers: synthetic forward
6 − 1 + 100 = 105, adjustment 105 − 104.5 = 0.5; and the no-op branch on a
chain with no at-the-money strike. -/
theorem calculate_underlying_adjustment_spec_witness :
    chainAdj.calculate_underlying_adjustment
      = ⟨{ chainAdj with underlying_adjustment := 1/2 }, false⟩ ∧
    chainNoAtm.calculate_underlying_adjustment = ⟨chainNoAtm, false⟩ := by
  constructor
  · have h := (calculate_underlying_adjustment_spec chainAdj).2
      (sampleOption "c100.SSE" 100 "100" 1 6) (sampleOption "p100.SSE" 100 "100" (-1) 1)
      (sampleUnderlying (209/2)) (by norm_num [chainAdj, ChainData.new]) rfl rfl rfl
    rw [h]
    have h2 : (sampleOption "c100.SSE" 100 "100" 1 6).mid_price
        - (sampleOption "p100.SSE" 100 "100" (-1) 1).mid_price + chainAdj.atm_price
        - (sampleUnderlying (209/2)).mid_price = 1/2 := by
      norm_num [sampleOption, sampleUnderlying, chainAdj, ChainData.new]
    rw [h2]
  · exact (calculate_underlying_adjustment_spec chainNoAtm).1 rfl

/-- C4 counterexample: a quote whose best bid and ask are missing (0, the
codebase's "no price" marker) is NOT a no-op — `update_tick` still replaces
the snapshot and overwrites the mid price with 0, discarding the previous
mid price of 10. -/
theorem update_tick_not_noop_cex :
    (instEx.update_tick ⟨"m2309.DCE", 0, 0⟩).mid_price ≠ instEx.mid_price ∧
    (instEx.update_tick ⟨"m2309.DCE", 0, 0⟩).mid_price = 0 ∧
    instEx.mid_price = 10 ∧
    (instEx.update_tick ⟨"m2309.DCE", 0, 0⟩).tick = some ⟨"m2309.DCE", 0, 0⟩ ∧
    instEx.tick = none := by
  refine ⟨by with_unfolding_all decide, by with_unfolding_all decide,
    by with_unfolding_all decide, rfl, rfl⟩

/-- C4 (amended): `update_tick` unconditionally stores the delivered quote as
the current snapshot and sets mid price = (best bid + best ask) / 2; there is
no malformed-quote no-op path (a quote with bid or ask 0 is processed the
same way), and no other field changes. -/
theorem update_tick_unconditional (i : InstrumentData) (t : TickData) :
    (i.update_tick t).tick = some t ∧
    (i.update_tick t).mid_price = (t.bid_price_1 + t.ask_price_1) / 2 ∧
    (i.update_tick t).long_pos = i.long_pos ∧
    (i.update_tick t).short_pos = i.short_pos ∧
    (i.update_tick t).net_pos = i.net_pos ∧
    (i.update_tick t).symbol = i.symbol ∧
    (i.update_tick t).vt_symbol = i.vt_symbol ∧
    (i.update_tick t).portfolio = i.portfolio :=
  ⟨rfl, rfl, rfl, rfl, rfl, rfl, rfl, rfl⟩

/-- C5 counterexample: a buy fill that CLOSES (direction long, offset close,
volume 3) on an instrument holding 7 lots short does not increase the long
quantity by 3 as the claim states; the code instead decreases the short
quantity to 4 and leaves the long quantity at 0. -/
theorem update_trade_close_cex :
    (instEx.update_trade ⟨"m2309.DCE", Direction.LONG, Offset.CLOSE, 3⟩).long_pos
        ≠ instEx.long_pos + 3 ∧
    (instEx.update_trade ⟨"m2309.DCE", Direction.LONG, Offset.CLOSE, 3⟩).long_pos = 0 ∧
    (instEx.update_trade ⟨"m2309.DCE", Direction.LONG, Offset.CLOSE, 3⟩).short_pos = 4 := by
  refine ⟨by decide, by decide, by decide⟩

/-- C5 (amended): `update_trade` adjusts exactly one side per fill — opening
a long adds the volume to the long quantity; a buy that does not open
(closing a short) SUBTRACTS the volume from the short quantity; opening a
short adds to the short quantity; a sell that does not open (closing a long)
SUBTRACTS from the long quantity — and then recomputes net = long − short. -/
theorem update_trade_direction_offset (i : InstrumentData) (t : TradeData) :
    (t.direction = Direction.LONG → t.offset = Offset.OPEN →
      (i.update_trade t).long_pos = i.long_pos + t.volume ∧
      (i.update_trade t).short_pos = i.short_pos) ∧
    (t.direction = Direction.LONG → t.offset ≠ Offset.OPEN →
      (i.update_trade t).short_pos = i.short_pos - t.volume ∧
      (i.update_trade t).long_pos = i.long_pos) ∧
    (t.direction ≠ Direction.LONG → t.offset = Offset.OPEN →
      (i.update_trade t).short_pos = i.short_pos + t.volume ∧
      (i.update_trade t).long_pos = i.long_pos) ∧
    (t.direction ≠ Direction.LONG → t.offset ≠ Offset.OPEN →
      (i.update_trade t).long_pos = i.long_pos - t.volume ∧
      (i.update_trade t).short_pos = i.short_pos) ∧
    (i.update_trade t).net_pos = (i.update_trade t).long_pos - (i.update_trade t).short_pos := by
  obtain ⟨sym, d, off, vol⟩ := t
  unfold InstrumentData.update_trade InstrumentData.calculate_net_pos
  by_cases hd : d = Direction.LONG <;> by_cases ho : off = Offset.OPEN <;>
    simp [hd, ho]

/-- Witness for the amended C5 statement: the buy-to-close fill on the
concrete seven-lots-short instrument lands in the second branch. -/
theorem update_trade_direction_offset_witness :
    (instEx.update_trade ⟨"m2309.DCE", Direction.LONG, Offset.CLOSE, 3⟩).short_pos
        = instEx.short_pos - 3 ∧
    (instEx.update_trade ⟨"m2309.DCE", Direction.LONG, Offset.CLOSE, 3⟩).long_pos
        = instEx.long_pos :=
  (update_trade_direction_offset instEx ⟨"m2309.DCE", Direction.LONG, Offset.CLOSE, 3⟩).2.1
    rfl (by decide)

/-- C6: net quantity always equals long − short after every operation that
touches the position quantities — the base fill update and the snapshot
overwrite, and likewise the option- and underlying-level fill updates (which
run the base update and then only recompute Greeks).  `net_pos` is written
nowhere else in the source except the zero initializers. -/
theorem net_pos_invariant (i : InstrumentData) (t : TradeData) (h : PositionHolding)
    (o : OptionData) (u : UnderlyingData) :
    (i.update_trade t).net_pos = (i.update_trade t).long_pos - (i.update_trade t).short_pos ∧
    (i.update_holding h).net_pos
        = (i.update_holding h).long_pos - (i.update_holding h).short_pos ∧
    (o.update_trade t).net_pos = (o.update_trade t).long_pos - (o.update_trade t).short_pos ∧
    (u.update_trade t).net_pos = (u.update_trade t).long_pos - (u.update_trade t).short_pos :=
  ⟨rfl, rfl, rfl, rfl⟩

/-- A member option with non-trivial theoretical Greeks and no position yet
(fixture for the fill-aggregation claims). -/
def optTheo : OptionData :=
  { sampleOption "opt1.SSE" 3 "3000" 1 0 with
    theo_price := 1/5
    theo_delta := 5000
    theo_gamma := 2
    theo_theta := -3
    theo_vega := 7 }

/-- A fresh chain holding `optTheo` as its only member. -/
def chainEx : ChainData :=
  { ChainData.new "510050_O.SSE" with options := [("opt1.SSE", optTheo)] }

/-- A buy-to-open fill on the member option. -/
def tradeEx : TradeData := ⟨"opt1.SSE", Direction.LONG, Offset.OPEN, 2⟩

/-- The chain after pushing `tradeEx` through the incremental fill path. -/
def chainFill : ChainData := (chainEx.apply_trades [tradeEx]).getD (ChainData.new "")

/-- Buy-to-open 5 then sell-to-open 5 on the same option: its net position
returns to zero while long and short stay at 5. -/
def tradesBuySellOpen : List TradeData :=
  [⟨"opt1.SSE", Direction.LONG, Offset.OPEN, 5⟩,
   ⟨"opt1.SSE", Direction.SHORT, Offset.OPEN, 5⟩]

/-- C3 counterexample: after buy-to-open 5 and sell-to-open 5 the incremental
path reports a chain long quantity of 5, while the full rescan — which skips
options with zero net position — reports 0, so the two paths do NOT agree on
every aggregate. -/
theorem update_trade_longpos_cex :
    Option.map (fun c => (c.long_pos, (ChainData.calculate_pos_greeks c).long_pos))
        (chainEx.apply_trades tradesBuySellOpen) = some (5, 0) ∧ (5 : ℤ) ≠ 0 :=
  ⟨by with_unfolding_all rfl, by decide⟩

/-- C3 (amended): starting from any coherent chain (fresh chains and chains
populated by `add_option` with fresh options are coherent), after ANY
successful sequence of fills through the incremental path, the full-rescan
aggregation reproduces the incrementally maintained net quantity, position
value and position delta/gamma/theta/vega.  The long and short quantities are
exempt: the incremental path keeps counting options whose net position has
returned to zero, the rescan does not. -/
theorem apply_trades_matches_rescan (c0 c : ChainData) (ts : List TradeData)
    (hc : chainConsistent c0) (h : c0.apply_trades ts = some c) :
    (c.calculate_pos_greeks).net_pos = c.net_pos ∧
    (c.calculate_pos_greeks).pos_value = c.pos_value ∧
    (c.calculate_pos_greeks).pos_delta = c.pos_delta ∧
    (c.calculate_pos_greeks).pos_gamma = c.pos_gamma ∧
    (c.calculate_pos_greeks).pos_theta = c.pos_theta ∧
    (c.calculate_pos_greeks).pos_vega = c.pos_vega :=
  calculate_pos_greeks_eq_of_consistent c (chainConsistent_apply_trades c0 c ts hc h)

/-- Witness for the amended C3 statement: one buy-to-open fill on the
concrete one-option chain. -/
theorem apply_trades_matches_rescan_witness :
    (chainFill.calculate_pos_greeks).net_pos = chainFill.net_pos ∧
    (chainFill.calculate_pos_greeks).pos_value = chainFill.pos_value ∧
    (chainFill.calculate_pos_greeks).pos_delta = chainFill.pos_delta ∧
    (chainFill.calculate_pos_greeks).pos_gamma = chainFill.pos_gamma ∧
    (chainFill.calculate_pos_greeks).pos_theta = chainFill.pos_theta ∧
    (chainFill.calculate_pos_greeks).pos_vega = chainFill.pos_vega :=
  apply_trades_matches_rescan chainEx chainFill [tradeEx]
    (by
      unfold chainConsistent
      refine ⟨?_, ?_, ?_, ?_, ?_, ?_, ?_, ?_, ?_⟩
      · intro q hq
        rw [List.mem_singleton.mp hq]
        unfold posGreeksConsistent
        with_unfolding_all decide
      all_goals with_unfolding_all decide)
    (by with_unfolding_all rfl)

/-- C9: for every option and every delivered quote, `OptionData.update_tick`
leaves the theoretical price, the theoretical Greeks and the position Greeks
(and the positions and static data) unchanged — whether or not the
implied-volatility recompute runs, raises, or skips — and only the quote
snapshot, the mid price and the implied-volatility fields can change; the
snapshot and mid price are always set to the delivered quote and its
bid/ask average. -/
theorem option_update_tick_frame (o : OptionData) (t : TickData) :
    ((o.update_tick t).state.theo_price = o.theo_price ∧
     (o.update_tick t).state.theo_delta = o.theo_delta ∧
     (o.update_tick t).state.theo_gamma = o.theo_gamma ∧
     (o.update_tick t).state.theo_theta = o.theo_theta ∧
     (o.update_tick t).state.theo_vega = o.theo_vega) ∧
    ((o.update_tick t).state.pos_value = o.pos_value ∧
     (o.update_tick t).state.pos_delta = o.pos_delta ∧
     (o.update_tick t).state.pos_gamma = o.pos_gamma ∧
     (o.update_tick t).state.pos_theta = o.pos_theta ∧
     (o.update_tick t).state.pos_vega = o.pos_vega) ∧
    ((o.update_tick t).state.long_pos = o.long_pos ∧
     (o.update_tick t).state.short_pos = o.short_pos ∧
     (o.update_tick t).state.net_pos = o.net_pos ∧
     (o.update_tick t).state.strike_price = o.strike_price ∧
     (o.update_tick t).state.interest_rate = o.interest_rate ∧
     (o.update_tick t).state.underlying = o.underlying ∧
     (o.update_tick t).state.underlying_adjustment = o.underlying_adjustment) ∧
    ((o.update_tick t).state.tick = some t ∧
     (o.update_tick t).state.mid_price = (t.bid_price_1 + t.ask_price_1) / 2) := by
  unfold OptionData.update_tick OptionData.calculate_option_impv InstrumentData.update_tick
  dsimp only
  cases hu : o.underlying with
  | none => simp
  | some u =>
    dsimp only
    by_cases hm : u.mid_price = 0
    · rw [if_pos hm]
      simp
    · rw [if_neg hm]
      cases hi : o.calculate_impv with
      | none => simp
      | some f => simp

/-- `add_chain` really records the chain symbol. -/
theorem mem_add_chain (u : UnderlyingData) (s : String) : s ∈ (u.add_chain s).chains := by
  unfold UnderlyingData.add_chain
  by_cases h : s ∈ u.chains
  · rw [if_pos h]
    exact h
  · rw [if_neg h]
    simp

/-- Re-running `set_underlying`'s option relink over an already relinked
option list changes nothing. -/
theorem set_underlying_map_idem (l : List (String × OptionData)) (u : UnderlyingData) :
    (l.map (fun q => (q.1, q.2.set_underlying u))).map (fun q => (q.1, q.2.set_underlying u))
      = l.map (fun q => (q.1, q.2.set_underlying u)) := by
  rw [List.map_map]
  rfl

/-- Relinking the underlying does not change any option's instrument symbol. -/
theorem map_vt_symbol_set_underlying (l : List (String × OptionData)) (u : UnderlyingData) :
    (l.map (fun q => (q.1, q.2.set_underlying u))).map (fun q => q.2.vt_symbol)
      = l.map (fun q => q.2.vt_symbol) := by
  rw [List.map_map]
  rfl

/-- On a portfolio that is already fully linked for `chain_symbol` and the
underlying contract — the registries hold the underlying and the chain, the
chain references that underlying, the underlying records the chain's symbol,
every member option is relinked, and the active option registry already maps
every member — `set_chain_underlying` is the identity. -/
theorem set_chain_underlying_stable (q : PortfolioData) (s : String) (ct : ContractData)
    (u2 : UnderlyingData) (chain2 : ChainData)
    (hu : dictGet q.underlyings ct.vt_symbol = some u2)
    (hc : dictGet q.master_chains s = some chain2)
    (hc2 : dictGet q.chains s = some chain2)
    (hcs : chain2.chain_symbol ∈ u2.chains)
    (hund : chain2.underlying = some u2)
    (hopt : chain2.options.map (fun q2 => (q2.1, q2.2.set_underlying u2)) = chain2.options)
    (hog : ∀ q2 ∈ chain2.options, dictGet q.options q2.2.vt_symbol = some q2.2) :
    q.set_chain_underlying s ct = q := by
  unfold PortfolioData.set_chain_underlying PortfolioData.get_chain ChainData.set_underlying
    UnderlyingData.add_chain
  rw [hu]
  try dsimp only
  rw [hc]
  try dsimp only
  rw [if_pos hcs]
  try dsimp only
  rw [hopt, ← hund]
  rw [dictSet_of_dictGet _ _ _ hu, dictSet_of_dictGet _ _ _ hc, dictSet_of_dictGet _ _ _ hc2]
  rw [foldl_dictSet_id (fun q2 => q2.2.vt_symbol) (fun q2 => q2.2) chain2.options q.options hog]

/-- After `set_chain_underlying`, the portfolio is fully linked for the given
chain symbol and underlying contract in the sense of
`set_chain_underlying_stable`; the well-formedness hypothesis says the master
chains map their options by pairwise distinct instrument symbols, which every
dict-backed state satisfies. -/
theorem set_chain_underlying_spec (p : PortfolioData) (s : String) (ct : ContractData)
    (hwf : ∀ k c, dictGet p.master_chains k = some c →
      (c.options.map (fun q2 => q2.2.vt_symbol)).Nodup) :
    ∃ u2 chain2,
      dictGet (p.set_chain_underlying s ct).underlyings ct.vt_symbol = some u2 ∧
      dictGet (p.set_chain_underlying s ct).master_chains s = some chain2 ∧
      dictGet (p.set_chain_underlying s ct).chains s = some chain2 ∧
      chain2.chain_symbol ∈ u2.chains ∧
      chain2.underlying = some u2 ∧
      chain2.options.map (fun q2 => (q2.1, q2.2.set_underlying u2)) = chain2.options ∧
      (∀ q2 ∈ chain2.options,
        dictGet (p.set_chain_underlying s ct).options q2.2.vt_symbol = some q2.2) := by
  unfold PortfolioData.set_chain_underlying PortfolioData.get_chain ChainData.set_underlying
  cases hu0 : dictGet p.underlyings ct.vt_symbol with
  | none =>
    try dsimp only
    cases hc0 : dictGet p.master_chains s with
    | none =>
      try dsimp only
      refine ⟨_, _, dictGet_dictSet_self _ _ _, dictGet_dictSet_self _ _ _,
        dictGet_dictSet_self _ _ _, mem_add_chain _ _, rfl,
        set_underlying_map_idem _ _, ?_⟩
      intro q2 hq2
      refine foldl_dictSet_get (fun x => x.2.vt_symbol) (fun x => x.2) _ _ ?_ q2 hq2
      rw [map_vt_symbol_set_underlying]
      simp [ChainData.new, ChainData.set_portfolio]
    | some chain0 =>
      try dsimp only
      refine ⟨_, _, dictGet_dictSet_self _ _ _, dictGet_dictSet_self _ _ _,
        dictGet_dictSet_self _ _ _, mem_add_chain _ _, rfl,
        set_underlying_map_idem _ _, ?_⟩
      intro q2 hq2
      refine foldl_dictSet_get (fun x => x.2.vt_symbol) (fun x => x.2) _ _ ?_ q2 hq2
      rw [map_vt_symbol_set_underlying]
      exact hwf s chain0 hc0
  | some u =>
    try dsimp only
    cases hc0 : dictGet p.master_chains s with
    | none =>
      try dsimp only
      refine ⟨_, _, dictGet_dictSet_self _ _ _, dictGet_dictSet_self _ _ _,
        dictGet_dictSet_self _ _ _, mem_add_chain _ _, rfl,
        set_underlying_map_idem _ _, ?_⟩
      intro q2 hq2
      refine foldl_dictSet_get (fun x => x.2.vt_symbol) (fun x => x.2) _ _ ?_ q2 hq2
      rw [map_vt_symbol_set_underlying]
      simp [ChainData.new, ChainData.set_portfolio]
    | some chain0 =>
      try dsimp only
      refine ⟨_, _, dictGet_dictSet_self _ _ _, dictGet_dictSet_self _ _ _,
        dictGet_dictSet_self _ _ _, mem_add_chain _ _, rfl,
        set_underlying_map_idem _ _, ?_⟩
      intro q2 hq2
      refine foldl_dictSet_get (fun x => x.2.vt_symbol) (fun x => x.2) _ _ ?_ q2 hq2
      rw [map_vt_symbol_set_underlying]
      exact hwf s chain0 hc0

/-- C8: activation is idempotent — running `set_chain_underlying` twice with
the same chain symbol and the same underlying contract leaves the underlyings
registry, the active chain registry and the active option registry (indeed
the whole portfolio state) identical to running it once.  The hypothesis only
rules out duplicate instrument-symbol keys inside a master chain's option
dict, which Python dicts cannot have. -/
theorem set_chain_underlying_idempotent (p : PortfolioData) (chain_symbol : String)
    (contract : ContractData)
    (hwf : ∀ k c, dictGet p.master_chains k = some c →
      (c.options.map (fun q2 => q2.2.vt_symbol)).Nodup) :
    ((p.set_chain_underlying chain_symbol contract).set_chain_underlying chain_symbol
        contract).underlyings
      = (p.set_chain_underlying chain_symbol contract).underlyings ∧
    ((p.set_chain_underlying chain_symbol contract).set_chain_underlying chain_symbol
        contract).chains
      = (p.set_chain_underlying chain_symbol contract).chains ∧
    ((p.set_chain_underlying chain_symbol contract).set_chain_underlying chain_symbol
        contract).options
      = (p.set_chain_underlying chain_symbol contract).options := by
  obtain ⟨u2, chain2, h1, h2, h3, h4, h5, h6, h7⟩ :=
    set_chain_underlying_spec p chain_symbol contract hwf
  have hfull := set_chain_underlying_stable (p.set_chain_underlying chain_symbol contract)
    chain_symbol contract u2 chain2 h1 h2 h3 h4 h5 h6 h7
  exact ⟨congrArg PortfolioData.underlyings hfull, congrArg PortfolioData.chains hfull,
    congrArg PortfolioData.options hfull⟩

/-- A concrete option contract: a CFFEX index call at strike 4000. -/
def contractEx : ContractData :=
  { symbol := "IO2309-C-4000"
    exchange := "CFFEX"
    vt_symbol := "IO2309-C-4000.CFFEX"
    pricetick := 1/5
    min_volume := 1
    size := 100
    option_strike := 4000
    option_index := "4000"
    option_type := OptionType.CALL
    option_underlying := "IO2309"
    option_expiry_days := 30 }

/-- A concrete underlying contract: the CFFEX index future. -/
def underlyingContract : ContractData :=
  { symbol := "IF2309"
    exchange := "CFFEX"
    vt_symbol := "IF2309.CFFEX"
    pricetick := 1/5
    min_volume := 1
    size := 300
    option_strike := 0
    option_index := ""
    option_type := OptionType.CALL
    option_underlying := ""
    option_expiry_days := 0 }

/-- Witness for C8: activating the chain of the freshly registered option on
an otherwise empty portfolio, twice. -/
theorem set_chain_underlying_idempotent_witness :
    ((((PortfolioData.new "pm").add_option contractEx).set_chain_underlying "IO2309.CFFEX"
          underlyingContract).set_chain_underlying "IO2309.CFFEX"
        underlyingContract).underlyings
      = (((PortfolioData.new "pm").add_option contractEx).set_chain_underlying "IO2309.CFFEX"
          underlyingContract).underlyings ∧
    ((((PortfolioData.new "pm").add_option contractEx).set_chain_underlying "IO2309.CFFEX"
          underlyingContract).set_chain_underlying "IO2309.CFFEX"
        underlyingContract).chains
      = (((PortfolioData.new "pm").add_option contractEx).set_chain_underlying "IO2309.CFFEX"
          underlyingContract).chains ∧
    ((((PortfolioData.new "pm").add_option contractEx).set_chain_underlying "IO2309.CFFEX"
          underlyingContract).set_chain_underlying "IO2309.CFFEX"
        underlyingContract).options
      = (((PortfolioData.new "pm").add_option contractEx).set_chain_underlying "IO2309.CFFEX"
          underlyingContract).options :=
  set_chain_underlying_idempotent ((PortfolioData.new "pm").add_option contractEx)
    "IO2309.CFFEX" underlyingContract
    (by
      intro k c h
      by_cases hk : k = "IO2309.CFFEX"
      · subst hk
        rw [show dictGet ((PortfolioData.new "pm").add_option contractEx).master_chains
            "IO2309.CFFEX" = some (((PortfolioData.new "pm").add_option
              contractEx).get_chain "IO2309.CFFEX").1 from by with_unfolding_all rfl] at h
        injection h with h2
        rw [← h2]
        with_unfolding_all decide
      · rw [show dictGet ((PortfolioData.new "pm").add_option contractEx).master_chains k
            = dictGet [("IO2309.CFFEX",
              (((PortfolioData.new "pm").add_option contractEx).get_chain "IO2309.CFFEX").1)] k
            from by with_unfolding_all rfl] at h
        unfold dictGet at h
        rw [if_neg (fun he => hk he.symm)] at h
        cases h)

/-- C10: the chain's portfolio back-reference is never established.
`ChainData.set_portfolio` iterates `self.options` — the dict KEYS, plain
strings — so it raises `AttributeError` on any chain that already holds an
option, and on an empty chain the loop body never runs; in neither case is
`self.portfolio` assigned.  Consequently the chain created by `get_chain`
during `add_option` (registration) keeps `portfolio = None`, and so does the
chain returned by `get_chain` directly. -/
theorem chain_portfolio_unset_bug :
    Option.map (fun c => c.portfolio)
        (dictGet ((PortfolioData.new "pm").add_option contractEx).master_chains
          "IO2309.CFFEX")
      = some none ∧
    ((PortfolioData.new "pm").get_chain "IO2309.CFFEX").1.portfolio = none ∧
    chainEx.set_portfolio "pm" = ⟨chainEx, true⟩ ∧
    chainEx.options.isEmpty = false := by
  refine ⟨by with_unfolding_all rfl, by with_unfolding_all rfl, rfl, rfl⟩
